import Mathlib

/-!
Verification of the khmer-tts-app session-orchestration core against its
natural-language specification. The definitions below are a shallow
embedding of the Python source: the keyboard listener
(app/system/keyboard_listener.py), the audio recorder
(app/audio/recorder.py), the transcription manager
(app/transcription/transcription_manager.py), the ElevenLabs provider
(app/transcription/models/elevenlabs_model.py), the text inserter
(app/system/text_inserter.py), and the main-window orchestration handlers
(app/gui/main_window.py).
-/

/-! ### String utilities modelling the Python string operations used by the code.
All are structurally recursive so that concrete evaluations go through the kernel. -/

/-- Python chr.lower() for ASCII letters (all strings in the code are ASCII). -/
def lowerChar (c : Char) : Char :=
  if 65 ≤ c.toNat ∧ c.toNat ≤ 90 then Char.ofNat (c.toNat + 32) else c

/-- Python str.lower(). -/
def lowerStr (s : String) : String :=
  String.mk (s.data.map lowerChar)

/-- helper for splitStr: split a character list at each separator. -/
def splitCharAux (sep : Char) : List Char → List Char → List (List Char)
  | [], acc => [acc.reverse]
  | c :: rest, acc =>
      if c = sep then acc.reverse :: splitCharAux sep rest []
      else splitCharAux sep rest (c :: acc)

/-- Python str.split(sep) with an explicit one-character separator. -/
def splitStr (sep : Char) (s : String) : List String :=
  (splitCharAux sep s.data []).map String.mk

/-- Python whitespace test used by str.strip(). -/
def isSpaceChar (c : Char) : Bool :=
  c = ' ' || c = '\t' || c = '\n' || c = '\r'

/-- Python str.strip(). -/
def trimStr (s : String) : String :=
  String.mk (((s.data.dropWhile isSpaceChar).reverse.dropWhile isSpaceChar).reverse)

/-- whether the first character list starts the second one. -/
def isPrefixOfL : List Char → List Char → Bool
  | [], _ => true
  | _ :: _, [] => false
  | a :: as, b :: bs => a = b && isPrefixOfL as bs

/-- Python str.startswith(p). -/
def startsWithStr (s p : String) : Bool :=
  isPrefixOfL p.data s.data

/-- helper for Python substring membership over character lists. -/
def containsSubAux (needle : List Char) : List Char → Bool
  | [] => needle.isEmpty
  | c :: rest => isPrefixOfL needle (c :: rest) || containsSubAux needle rest

/-- Python substring test: needle in hay. -/
def containsSub (needle hay : String) : Bool :=
  containsSubAux needle.data hay.data

/-! ### HotkeyWatcher: KeyboardThread from app/system/keyboard_listener.py. -/

/-- A raw pynput key event payload: special keys carry a name attribute,
printable keys carry a possibly absent char attribute. -/
inductive RawKey where
  | special (name : String)
  | char (c : Option String)
deriving Repr, DecidableEq

/-- key_str.split(underscore)[0] as used by KeyboardThread._normalize_key. -/
def firstPart (k : String) : String :=
  (splitStr '_' k).headD k

/-- KeyboardThread._normalize_key: special keys are lower-cased and the
left/right suffix of ctrl/alt/shift variants is stripped; printable keys are
lower-cased; everything else maps to None. -/
def normalizeKey : RawKey → Option String
  | RawKey.special name =>
      let keyStr := lowerStr name
      if startsWithStr keyStr "ctrl_" || startsWithStr keyStr "alt_" ||
         startsWithStr keyStr "shift_" then
        some (firstPart keyStr)
      else some keyStr
  | RawKey.char none => none
  | RawKey.char (some c) => if c.isEmpty then none else some (lowerStr c)

/-- The mutable fields of KeyboardThread relevant to event processing. -/
structure KbState where
  currentlyPressed : List String
  shortcutKeys : List String
  isRecording : Bool
  running : Bool
deriving Repr, DecidableEq

/-- Python set.add: insert the key if it is not already in the set. -/
def addKey (l : List String) (k : String) : List String :=
  if k ∈ l then l else k :: l

/-- KeyboardThread.check_shortcut_pressed: empty pressed set is a fast False
path, otherwise every shortcut key must be currently pressed. -/
def checkShortcutPressed (s : KbState) : Bool :=
  if s.currentlyPressed.isEmpty then false
  else s.shortcutKeys.all (fun k => decide (k ∈ s.currentlyPressed))

/-- The key name aliases applied by KeyboardThread.update_shortcut. -/
def keyMapping (k : String) : String :=
  if k = "control" then "ctrl"
  else if k = "ctl" then "ctrl"
  else if k = "command" then "cmd"
  else if k = "windows" then "cmd"
  else if k = "win" then "cmd"
  else if k = "option" then "alt"
  else if k = "return" then "enter"
  else k

/-- KeyboardThread.update_shortcut on a string: lower-case, split on plus,
strip each part, apply the alias mapping, and collect into a set. -/
def parseShortcut (s : String) : List String :=
  (splitStr '+' (lowerStr s)).foldl (fun acc k => addKey acc (keyMapping (trimStr k))) []

/-- The two logical events the listener emits (recording_started and
recording_stopped signals). -/
inductive Emit where
  | started
  | stopped
deriving Repr, DecidableEq

/-- KeyboardThread.on_press body: normalize, add truthy key names to the
pressed set, and emit recording_started when the shortcut is a subset of the
pressed keys and the engaged flag was clear. -/
def onPress (s : KbState) (key : RawKey) : KbState × Option Emit :=
  let keyStr := normalizeKey key
  let pressed1 :=
    match keyStr with
    | some ks => if ks.isEmpty then s.currentlyPressed else addKey s.currentlyPressed ks
    | none => s.currentlyPressed
  let s1 := { s with currentlyPressed := pressed1 }
  if checkShortcutPressed s1 && !s1.isRecording then
    ({ s1 with isRecording := true }, some Emit.started)
  else (s1, none)

/-- KeyboardThread.on_release body: normalize, remove the key from the
pressed set if present, and emit recording_stopped when the engaged flag was
set and the shortcut is no longer fully pressed. -/
def onRelease (s : KbState) (key : RawKey) : KbState × Option Emit :=
  let keyStr := normalizeKey key
  let pressed1 :=
    match keyStr with
    | some ks => s.currentlyPressed.erase ks
    | none => s.currentlyPressed
  let s1 := { s with currentlyPressed := pressed1 }
  if s1.isRecording && !(checkShortcutPressed s1) then
    ({ s1 with isRecording := false }, some Emit.stopped)
  else (s1, none)

/-- A physical key edge event. -/
inductive KEvent where
  | press (k : RawKey)
  | release (k : RawKey)
deriving Repr, DecidableEq

/-- One listener callback dispatch. -/
def kbStep (s : KbState) (e : KEvent) : KbState × Option Emit :=
  match e with
  | KEvent.press k => onPress s k
  | KEvent.release k => onRelease s k

/-- Process a sequence of key events, collecting the emitted signals. -/
def kbRun (s : KbState) : List KEvent → KbState × List Emit
  | [] => (s, [])
  | e :: rest =>
      let step := kbStep s e
      let next := kbRun step.1 rest
      (next.1, step.2.toList ++ next.2)

/-- KeyboardThread.__init__ with a shortcut string. -/
def initKb (shortcut : String) : KbState :=
  { currentlyPressed := [], shortcutKeys := parseShortcut shortcut,
    isRecording := false, running := true }

/-! ### AudioCapture: AudioRecorder from app/audio/recorder.py. -/

/-- The recorder fields driven by start_recording, _record and stop_recording. -/
structure RecState where
  isRecording : Bool
  frames : List String
  streamOpen : Bool
deriving Repr, DecidableEq

/-- Which branch AudioRecorder.start_recording took: the early return that
logs the Already recording warning, or a fresh capture start. -/
inductive StartOutcome where
  | alreadyRecordingWarning
  | started
deriving Repr, DecidableEq

/-- AudioRecorder.start_recording: warn and return if already recording,
otherwise clear the frame buffer, open the stream and begin capturing. -/
def startRecording (r : RecState) : RecState × StartOutcome :=
  if r.isRecording then (r, StartOutcome.alreadyRecordingWarning)
  else ({ isRecording := true, frames := [], streamOpen := true }, StartOutcome.started)

/-- One iteration of the AudioRecorder._record worker loop: append a frame
while the recording flag is set. -/
def recordFrame (r : RecState) (d : String) : RecState :=
  if r.isRecording then { r with frames := r.frames ++ [d] } else r

/-- AudioRecorder._save_to_wav: None when no frames were captured, otherwise
the finalized artifact (modelled by its frame content). -/
def saveToWav (frames : List String) : Option (List String) :=
  if frames.isEmpty then none else some frames

/-- AudioRecorder.stop_recording: None when not recording; otherwise clear
the flag, close the stream and finalize the buffered frames. -/
def stopRecording (r : RecState) : RecState × Option (List String) :=
  if !r.isRecording then (r, none)
  else ({ r with isRecording := false, streamOpen := false }, saveToWav r.frames)

/-! ### TranscriptionManager error classification
(app/transcription/transcription_manager.py, _transcribe_thread). -/

/-- The network-failure signatures checked first by _transcribe_thread. -/
def networkSignatures : List String :=
  ["connection", "network", "timeout", "unreachable", "proxy",
   "dns", "timed out", "socket", "connect", "connection refused"]

/-- The API/service-failure signatures checked second by _transcribe_thread. -/
def apiSignatures : List String :=
  ["unauthorized", "403", "401", "quota", "limit", "rate limit",
   "invalid key", "api key", "service unavailable", "server error",
   "500", "502", "503", "504", "bad gateway"]

/-- whether any signature occurs as a substring of the text. -/
def containsAny (sigs : List String) (text : String) : Bool :=
  sigs.any (fun sig => containsSub sig text)

/-- The except branch of _transcribe_thread: classify the exception text by
substring search over its lower-cased form, network signatures first, then
API signatures, else a generic message built from the original text. -/
def classifyError (errStr modelName : String) : String :=
  let errLower := lowerStr errStr
  if containsAny networkSignatures errLower then "network_error:" ++ modelName
  else if containsAny apiSignatures errLower then "api_error:" ++ modelName
  else "Transcription error: " ++ errStr

/-- What the transcription background thread emits to its observers. -/
inductive TMEmission where
  | completed (text : String)
  | error (msg : String)
deriving Repr, DecidableEq

/-- TranscriptionManager._transcribe_thread: a normal model result is
emitted through transcription_completed; a raised exception is classified
and emitted through transcription_error. -/
def transcribeThread (modelRun : Except String String) (modelName : String) : TMEmission :=
  match modelRun with
  | Except.ok t => TMEmission.completed t
  | Except.error e => TMEmission.error (classifyError e modelName)

/-! ### ElevenLabs provider (app/transcription/models/elevenlabs_model.py). -/

/-- Outcome of the SDK call inside ElevenLabsModel.transcribe, as seen at
the try block: a response carrying the extracted text, or a raised error. -/
inductive ApiOutcome where
  | ok (text : String)
  | raises (msg : String)
deriving Repr, DecidableEq

/-- ElevenLabsModel.transcribe: a missing file raises FileNotFoundError
before the try block; inside the try block a successful response is
stripped and returned, while any exception is caught, printed, and replaced
by the empty string. -/
def elevenLabsTranscribe (fileExists : Bool) (api : ApiOutcome) : Except String String :=
  if !fileExists then Except.error "Audio file not found"
  else
    match api with
    | ApiOutcome.ok text => Except.ok (trimStr text)
    | ApiOutcome.raises _ => Except.ok ""

/-! ### TextInserter (app/system/text_inserter.py). -/

/-- The process-external clipboard plus the stream of texts delivered to the
focused application by paste keystrokes. -/
structure ClipSystem where
  clipboard : String
  pasted : List String
deriving Repr, DecidableEq

/-- Fault injection for the clipboard path: the pyperclip copy of the new
text may raise, which the surrounding try/except turns into a False return. -/
inductive ClipFault where
  | ok
  | atCopy
deriving Repr, DecidableEq

/-- TextInserter._insert_via_clipboard: snapshot the clipboard, copy the
text, paste it with a synthetic ctrl+v (delivering the clipboard content to
the focused app), then restore the snapshot; exceptions return False. -/
def insertViaClipboard (f : ClipFault) (text : String) (s : ClipSystem) : ClipSystem × Bool :=
  let original := s.clipboard
  match f with
  | ClipFault.atCopy => (s, false)
  | ClipFault.ok =>
      let s1 := { s with clipboard := text }
      let s2 := { s1 with pasted := s1.pasted ++ [s1.clipboard] }
      let s3 := { s2 with clipboard := original }
      (s3, true)

/-! ### MainWindow orchestration (app/gui/main_window.py). -/

/-- The MainWindow fields observable from the orchestration handlers:
state flags, the surfaced status label and overlay, the text-insertion
calls, the tray notifications (title, kind) and the received error events. -/
structure MWState where
  recording : Bool
  transcribing : Bool
  statusLabel : String
  overlayState : String
  insertCalls : List (String × String)
  notifications : List (String × String)
  errorEvents : List String
deriving Repr, DecidableEq

/-- MainWindow.on_transcription_completed: clear the transcribing flag, set
the Idle status, and either hand non-empty text to the inserter with a
success notification or show the empty-result warning notification. -/
def onTranscriptionCompletedMW (text insertionMethod : String) (showOverlay : Bool)
    (mw : MWState) : MWState :=
  let mw1 := { mw with
    transcribing := false
    statusLabel := "Idle"
    overlayState := if showOverlay then "idle" else mw.overlayState }
  if text.isEmpty then
    { mw1 with notifications := mw1.notifications ++ [("Transcription Failed", "warning")] }
  else
    { mw1 with
      insertCalls := mw1.insertCalls ++ [(text, insertionMethod)]
      notifications := mw1.notifications ++ [("Transcription Completed", "info")] }

/-- MainWindow.on_transcription_error: clear the transcribing flag, surface
the error status and a critical notification, and record the error class. -/
def onTranscriptionErrorMW (err : String) (showOverlay : Bool) (mw : MWState) : MWState :=
  { mw with
    transcribing := false
    statusLabel := "Error during transcription"
    overlayState := if showOverlay then "idle" else mw.overlayState
    errorEvents := mw.errorEvents ++ [err]
    notifications := mw.notifications ++ [("Transcription Error", "critical")] }

/-- The composed running application: the keyboard thread, the main window,
the recorder, the count of in-flight transcription threads, the audio
artifacts handed to model.transcribe, and the relevant settings. -/
structure SysState where
  kb : KbState
  mw : MWState
  recorder : RecState
  pendingTrans : Nat
  transcribeCalls : List (List String)
  modelAvailable : Bool
  showOverlay : Bool
  insertionMethod : String
  modelName : String
deriving Repr, DecidableEq

/-- TranscriptionManager.transcribe as invoked from MainWindow.stop_recording:
if the selected model is unavailable an error is emitted to
on_transcription_error, otherwise transcription_started is emitted
(setting the transcribing flag synchronously) and the blocking model call is
dispatched on a background thread. -/
def managerTranscribe (s : SysState) (artifact : List String) : SysState :=
  if s.modelAvailable then
    { s with
      transcribeCalls := s.transcribeCalls ++ [artifact]
      pendingTrans := s.pendingTrans + 1
      mw := { s.mw with
        transcribing := true
        statusLabel := "Transcribing..."
        overlayState := if s.showOverlay then "transcribing" else s.mw.overlayState } }
  else
    { s with mw := onTranscriptionErrorMW ("missing_api_key:" ++ s.modelName) s.showOverlay s.mw }

/-- MainWindow.start_recording (with _start_recording_impl): rejected with a
warning when the recording flag is already set, otherwise set the flag,
surface the recording status, and start the audio recorder. -/
def mwStartRecording (s : SysState) : SysState :=
  if s.mw.recording then s
  else
    let mw1 := { s.mw with
      recording := true
      statusLabel := "Recording..."
      overlayState := if s.showOverlay then "recording" else s.mw.overlayState }
    let rec1 := (startRecording s.recorder).1
    { s with mw := mw1, recorder := rec1 }

/-- MainWindow.stop_recording: rejected when the recording flag is clear,
otherwise clear the flag, stop the recorder, and either dispatch the saved
artifact to the transcription manager or surface the save failure. -/
def mwStopRecording (s : SysState) : SysState :=
  if !s.mw.recording then s
  else
    let mw1 := { s.mw with recording := false, statusLabel := "Processing recording..." }
    let stopped := stopRecording s.recorder
    match stopped.2 with
    | some artifact => managerTranscribe { s with mw := mw1, recorder := stopped.1 } artifact
    | none =>
        { s with
          recorder := stopped.1
          mw := { mw1 with
            statusLabel := "Failed to save recording"
            overlayState := if s.showOverlay then "idle" else mw1.overlayState } }

/-- Events reaching the orchestrator: key edges from the listener thread,
audio frames from the capture worker, and completions or errors from the
transcription background thread. -/
inductive SysEvent where
  | key (e : KEvent)
  | audioFrame (d : String)
  | transCompleted (text : String)
  | transError (msg : String)
deriving Repr, DecidableEq

/-- One orchestrator step: key events run the listener callback and its
connected slot, frames accumulate in the recorder, and transcription
completions or errors (only deliverable while a thread is pending) run the
corresponding MainWindow handler. -/
def sysStep (s : SysState) (e : SysEvent) : SysState :=
  match e with
  | SysEvent.key ke =>
      let step := kbStep s.kb ke
      let s1 := { s with kb := step.1 }
      match step.2 with
      | some Emit.started => mwStartRecording s1
      | some Emit.stopped => mwStopRecording s1
      | none => s1
  | SysEvent.audioFrame d => { s with recorder := recordFrame s.recorder d }
  | SysEvent.transCompleted text =>
      if s.pendingTrans = 0 then s
      else { s with
        pendingTrans := s.pendingTrans - 1
        mw := onTranscriptionCompletedMW text s.insertionMethod s.showOverlay s.mw }
  | SysEvent.transError msg =>
      if s.pendingTrans = 0 then s
      else { s with
        pendingTrans := s.pendingTrans - 1
        mw := onTranscriptionErrorMW msg s.showOverlay s.mw }

/-- Process a sequence of orchestrator events in arrival order. -/
def sysRun (s : SysState) (evs : List SysEvent) : SysState :=
  evs.foldl sysStep s

/-- The MainWindow fields at startup. -/
def mwInit : MWState :=
  { recording := false, transcribing := false, statusLabel := "Idle",
    overlayState := "idle", insertCalls := [], notifications := [], errorEvents := [] }

/-- The recorder fields at startup. -/
def recInit : RecState :=
  { isRecording := false, frames := [], streamOpen := false }

/-- The application at startup with the default shortcut and settings. -/
def sysInit : SysState :=
  { kb := initKb "ctrl+alt+space", mw := mwInit, recorder := recInit,
    pendingTrans := 0, transcribeCalls := [], modelAvailable := true,
    showOverlay := true, insertionMethod := "clipboard", modelName := "gemini_flash" }

/-! ### Fault-injected listener callbacks, for the catch-all exception
handling of KeyboardThread.on_press and on_release. -/

/-- A point inside the callback body where an exception may be raised:
in _normalize_key (before any state mutation) or in the signal emit (after
the state mutation). -/
inductive PyFault where
  | ok
  | atNormalize
  | atEmit
deriving Repr, DecidableEq

/-- The try-block body of on_press: an error propagates together with the
state at the raise point. -/
def onPressRaw (f : PyFault) (s : KbState) (key : RawKey) :
    Except (String × KbState) (KbState × Option Emit) :=
  match f with
  | PyFault.atNormalize => Except.error ("Error in on_press", s)
  | _ =>
    let keyStr := normalizeKey key
    let pressed1 :=
      match keyStr with
      | some ks => if ks.isEmpty then s.currentlyPressed else addKey s.currentlyPressed ks
      | none => s.currentlyPressed
    let s1 := { s with currentlyPressed := pressed1 }
    if checkShortcutPressed s1 && !s1.isRecording then
      let s2 := { s1 with isRecording := true }
      match f with
      | PyFault.atEmit => Except.error ("Error in on_press", s2)
      | _ => Except.ok (s2, some Emit.started)
    else Except.ok (s1, none)

/-- The try-block body of on_release. -/
def onReleaseRaw (f : PyFault) (s : KbState) (key : RawKey) :
    Except (String × KbState) (KbState × Option Emit) :=
  match f with
  | PyFault.atNormalize => Except.error ("Error in on_release", s)
  | _ =>
    let keyStr := normalizeKey key
    let pressed1 :=
      match keyStr with
      | some ks => s.currentlyPressed.erase ks
      | none => s.currentlyPressed
    let s1 := { s with currentlyPressed := pressed1 }
    if s1.isRecording && !(checkShortcutPressed s1) then
      let s2 := { s1 with isRecording := false }
      match f with
      | PyFault.atEmit => Except.error ("Error in on_release", s2)
      | _ => Except.ok (s2, some Emit.stopped)
    else Except.ok (s1, none)

/-- How a listener callback finishes: a normal return to the pynput
listener, or an uncaught exception that would kill the listener thread. -/
inductive HandlerOutcome (α : Type) where
  | normalReturn (val : α)
  | uncaught (err : String)
deriving Repr, DecidableEq

/-- on_press with its surrounding try/except: any exception from the body is
logged and swallowed, so the callback always returns normally. -/
def onPressHandled (f : PyFault) (s : KbState) (key : RawKey) :
    HandlerOutcome (KbState × Option Emit) :=
  match onPressRaw f s key with
  | Except.ok r => HandlerOutcome.normalReturn r
  | Except.error e => HandlerOutcome.normalReturn (e.2, none)

/-- on_release with its surrounding try/except and its final return of
self.running, which executes even after a caught exception. -/
def onReleaseHandled (f : PyFault) (s : KbState) (key : RawKey) :
    HandlerOutcome ((KbState × Option Emit) × Bool) :=
  match onReleaseRaw f s key with
  | Except.ok r => HandlerOutcome.normalReturn (r, r.1.running)
  | Except.error e => HandlerOutcome.normalReturn ((e.2, none), e.2.running)

/-! ### Auxiliary definitions used by the statements below. -/

/-- Checks that a signal sequence strictly alternates between
recording_started and recording_stopped, given the engaged flag at the
start of the sequence: after started only stopped may follow and vice versa. -/
def altFrom : Bool → List Emit → Bool
  | _, [] => true
  | false, Emit.started :: rest => altFrom true rest
  | true, Emit.stopped :: rest => altFrom false rest
  | _, _ => false

/-- The listener invariant: whenever the shortcut combination is fully
pressed, the engaged flag is set. -/
def kbInv (s : KbState) : Prop :=
  checkShortcutPressed s = true → s.isRecording = true

/-- An event interleaving with the default shortcut: engage the combo,
capture one frame, release it (dispatching a transcription), then press the
combo again while that transcription is still pending. -/
def c1Trace : List SysEvent :=
  [SysEvent.key (KEvent.press (RawKey.special "ctrl")),
   SysEvent.key (KEvent.press (RawKey.special "alt")),
   SysEvent.key (KEvent.press (RawKey.special "space")),
   SysEvent.audioFrame "pcm",
   SysEvent.key (KEvent.release (RawKey.special "space")),
   SysEvent.key (KEvent.press (RawKey.special "space"))]

/-- An application state in which a recording is active but the capture
worker has appended zero frames. -/
def c3State : SysState :=
  { sysInit with
    mw := { mwInit with recording := true }
    recorder := { isRecording := true, frames := [], streamOpen := true } }

/-! ### Lemmas about the listener state machine. -/

/-- Each on_press dispatch either emits recording_started, flipping the
engaged flag from clear to set, or emits nothing and leaves the flag as is. -/
theorem onPress_char (s : KbState) (k : RawKey) :
    ((onPress s k).2 = some Emit.started ∧ s.isRecording = false ∧
      (onPress s k).1.isRecording = true) ∨
    ((onPress s k).2 = none ∧ (onPress s k).1.isRecording = s.isRecording) := by
  unfold onPress
  dsimp only
  split
  · next hcond =>
      left
      refine ⟨rfl, ?_, rfl⟩
      have h2 := ((Bool.and_eq_true _ _).mp hcond).2
      simpa using h2
  · right
    exact ⟨rfl, rfl⟩

/-- Each on_release dispatch either emits recording_stopped, flipping the
engaged flag from set to clear, or emits nothing and leaves the flag as is. -/
theorem onRelease_char (s : KbState) (k : RawKey) :
    ((onRelease s k).2 = some Emit.stopped ∧ s.isRecording = true ∧
      (onRelease s k).1.isRecording = false) ∨
    ((onRelease s k).2 = none ∧ (onRelease s k).1.isRecording = s.isRecording) := by
  unfold onRelease
  dsimp only
  split
  · next hcond =>
      left
      refine ⟨rfl, ?_, rfl⟩
      exact ((Bool.and_eq_true _ _).mp hcond).1
  · right
    exact ⟨rfl, rfl⟩

/-- Combined step characterization over both kinds of key events. -/
theorem kbStep_char (s : KbState) (e : KEvent) :
    ((kbStep s e).2 = some Emit.started ∧ s.isRecording = false ∧
      (kbStep s e).1.isRecording = true) ∨
    ((kbStep s e).2 = some Emit.stopped ∧ s.isRecording = true ∧
      (kbStep s e).1.isRecording = false) ∨
    ((kbStep s e).2 = none ∧ (kbStep s e).1.isRecording = s.isRecording) := by
  cases e with
  | press k =>
      rcases onPress_char s k with h | h
      · exact Or.inl h
      · exact Or.inr (Or.inr h)
  | release k =>
      rcases onRelease_char s k with h | h
      · exact Or.inr (Or.inl h)
      · exact Or.inr (Or.inr h)

/-- The emitted signal sequence of any run alternates, starting from the
engaged flag of the initial state. -/
theorem altFrom_kbRun (tr : List KEvent) :
    ∀ s : KbState, altFrom s.isRecording (kbRun s tr).2 = true := by
  induction tr with
  | nil =>
      intro s
      cases h : s.isRecording <;> rfl
  | cons e rest ih =>
      intro s
      show altFrom s.isRecording ((kbStep s e).2.toList ++ (kbRun (kbStep s e).1 rest).2) = true
      rcases kbStep_char s e with ⟨h1, h2, h3⟩ | ⟨h1, h2, h3⟩ | ⟨h1, h2⟩
      · have hrest := ih (kbStep s e).1
        rw [h3] at hrest
        rw [h1, h2]
        simpa [altFrom] using hrest
      · have hrest := ih (kbStep s e).1
        rw [h3] at hrest
        rw [h1, h2]
        simpa [altFrom] using hrest
      · have hrest := ih (kbStep s e).1
        rw [h2] at hrest
        rw [h1]
        simpa [altFrom] using hrest

/-- Removing a key can only break the shortcut match, never establish it. -/
theorem checkShortcutPressed_erase (s : KbState) (ks : String)
    (h : checkShortcutPressed { s with currentlyPressed := s.currentlyPressed.erase ks } = true) :
    checkShortcutPressed s = true := by
  unfold checkShortcutPressed at h ⊢
  dsimp only at h
  by_cases he : (s.currentlyPressed.erase ks).isEmpty = true
  · rw [if_pos he] at h
    exact absurd h (by simp)
  · rw [if_neg he] at h
    have hne : ¬ s.currentlyPressed.isEmpty = true := by
      intro hcp
      apply he
      have hnil : s.currentlyPressed = [] := by
        simpa using hcp
      simp [hnil]
    rw [if_neg hne]
    rw [List.all_eq_true] at h ⊢
    intro k hk
    have hmem := h k hk
    simp only [decide_eq_true_eq] at hmem ⊢
    exact List.mem_of_mem_erase hmem

/-- Every listener step preserves the invariant that a fully pressed
shortcut implies the engaged flag. -/
theorem kbStep_preserves_inv (s : KbState) (e : KEvent) (h : kbInv s) :
    kbInv (kbStep s e).1 := by
  cases e with
  | press k =>
      show kbInv (onPress s k).1
      unfold onPress
      dsimp only
      split
      · next hc =>
          intro _
          rfl
      · next hc =>
          intro hcheck
          show s.isRecording = true
          cases hrec : s.isRecording with
          | true => rfl
          | false =>
              apply absurd _ hc
              rw [Bool.and_eq_true]
              exact ⟨hcheck, by simp [hrec]⟩
  | release k =>
      show kbInv (onRelease s k).1
      unfold onRelease
      dsimp only
      split
      · next hc =>
          intro hcheck
          exfalso
          have hcf := ((Bool.and_eq_true _ _).mp hc).2
          rw [Bool.not_eq_true'] at hcf
          have hct : checkShortcutPressed
              { s with currentlyPressed :=
                  match normalizeKey k with
                  | some ks => s.currentlyPressed.erase ks
                  | none => s.currentlyPressed } = true := hcheck
          rw [hct] at hcf
          simp at hcf
      · next hc =>
          intro hcheck
          show s.isRecording = true
          apply h
          cases hk : normalizeKey k with
          | some ks =>
              rw [hk] at hcheck
              exact checkShortcutPressed_erase s ks hcheck
          | none =>
              rw [hk] at hcheck
              exact hcheck

/-- The invariant holds along any run. -/
theorem kbRun_inv (tr : List KEvent) :
    ∀ s : KbState, kbInv s → kbInv (kbRun s tr).1 := by
  induction tr with
  | nil => intro s h; exact h
  | cons e rest ih =>
      intro s h
      show kbInv (kbRun (kbStep s e).1 rest).1
      exact ih (kbStep s e).1 (kbStep_preserves_inv s e h)

/-- The invariant holds of the freshly initialized listener. -/
theorem initKb_inv (shortcut : String) : kbInv (initKb shortcut) := by
  intro h
  simp [checkShortcutPressed, initKb] at h

/-- C2: for every shortcut configuration and every sequence of key-down and
key-up events, the emitted recording_started and recording_stopped signals
strictly alternate starting with recording_started (so ComboEngaged fires
at most once before its matching ComboReleased and exactly one
ComboReleased precedes any further ComboEngaged), and while the pressed set
is a superset of the shortcut no further ComboEngaged can be emitted, so it
fires at most once per continuous superset-holding interval. -/
theorem C2_engage_release_alternation (shortcut : String) (tr : List KEvent) :
    altFrom false (kbRun (initKb shortcut) tr).2 = true ∧
    (∀ e : KEvent, checkShortcutPressed (kbRun (initKb shortcut) tr).1 = true →
      (kbStep (kbRun (initKb shortcut) tr).1 e).2 ≠ some Emit.started) := by
  constructor
  · exact altFrom_kbRun tr (initKb shortcut)
  · intro e hcheck heq
    have hrec : (kbRun (initKb shortcut) tr).1.isRecording = true :=
      kbRun_inv tr (initKb shortcut) (initKb_inv shortcut) hcheck
    rcases kbStep_char (kbRun (initKb shortcut) tr).1 e with ⟨_, h2, _⟩ | ⟨h1, _, _⟩ | ⟨h1, _⟩
    · rw [hrec] at h2
      exact absurd h2 (by simp)
    · rw [heq] at h1
      exact absurd h1 (by simp)
    · rw [heq] at h1
      exact absurd h1 (by simp)

/-- Witness: with the default shortcut held, a further key press emits no
second ComboEngaged, and a full press-release cycle emits the alternating
pair. -/
theorem C2_engage_release_alternation_witness :
    checkShortcutPressed (kbRun (initKb "ctrl+alt+space")
      [KEvent.press (RawKey.special "ctrl"), KEvent.press (RawKey.special "alt"),
       KEvent.press (RawKey.special "space")]).1 = true ∧
    (kbStep (kbRun (initKb "ctrl+alt+space")
      [KEvent.press (RawKey.special "ctrl"), KEvent.press (RawKey.special "alt"),
       KEvent.press (RawKey.special "space")]).1
        (KEvent.press (RawKey.char (some "x")))).2 ≠ some Emit.started ∧
    altFrom false (kbRun (initKb "ctrl+alt+space")
      [KEvent.press (RawKey.special "ctrl"), KEvent.press (RawKey.special "alt"),
       KEvent.press (RawKey.special "space"),
       KEvent.release (RawKey.special "space")]).2 = true := by
  refine ⟨by decide, ?_, (C2_engage_release_alternation "ctrl+alt+space" _).1⟩
  exact (C2_engage_release_alternation "ctrl+alt+space" _).2
    (KEvent.press (RawKey.char (some "x"))) (by decide)

/-- C1 counterexample: starting from the initial application state, engage
the default combo, capture a frame, release the combo (which leaves a
transcription pending), and press the combo again while the state is
Transcribing: the engagement is accepted, not rejected, and a second
session enters Recording while the first is still Transcribing, so two
sessions are simultaneously non-Idle. -/
theorem C1_counterexample :
    (sysRun sysInit c1Trace).mw.recording = true ∧
    (sysRun sysInit c1Trace).mw.transcribing = true ∧
    (sysRun sysInit c1Trace).pendingTrans = 1 ∧
    (sysRun sysInit c1Trace).recorder.isRecording = true := by decide

/-- C1 amended: only a ComboEngaged arriving while the state is Recording
is rejected (the whole application state is left unchanged); a ComboEngaged
arriving while Transcribing (when the recording flag is clear) is accepted
and starts a new recording session, though it leaves the pending
transcription and its dispatched artifacts unaltered. -/
theorem C1_amended_engage_guard (s : SysState) :
    (s.mw.recording = true → mwStartRecording s = s) ∧
    (s.mw.recording = false →
      (mwStartRecording s).mw.recording = true ∧
      (mwStartRecording s).pendingTrans = s.pendingTrans ∧
      (mwStartRecording s).transcribeCalls = s.transcribeCalls ∧
      (mwStartRecording s).mw.transcribing = s.mw.transcribing) := by
  constructor
  · intro h
    unfold mwStartRecording
    rw [if_pos h]
  · intro h
    unfold mwStartRecording
    rw [if_neg (by simp [h])]
    exact ⟨rfl, rfl, rfl, rfl⟩

/-- Witness for the amended C1: a state with an active recording rejects
the engagement, while a transcribing-but-not-recording state accepts it. -/
theorem C1_amended_engage_guard_witness :
    mwStartRecording { sysInit with mw := { mwInit with recording := true } } =
      { sysInit with mw := { mwInit with recording := true } } ∧
    (mwStartRecording { sysInit with
        mw := { mwInit with transcribing := true }
        pendingTrans := 1 }).mw.recording = true := by
  refine ⟨(C1_amended_engage_guard _).1 rfl, ?_⟩
  exact ((C1_amended_engage_guard _).2 rfl).1

/-- C3 counterexample: stopping a recording that captured zero frames
surfaces the literal Failed-to-save status label and no error-class event
at all; in particular no no_audio class is emitted, contrary to the claimed
Failed(NoData) status event. -/
theorem C3_counterexample :
    (mwStopRecording c3State).mw.errorEvents = [] ∧
    (mwStopRecording c3State).mw.statusLabel = "Failed to save recording" ∧
    ¬ (mwStopRecording c3State).mw.statusLabel = "no_audio" ∧
    (mwStopRecording c3State).transcribeCalls = [] ∧
    (mwStopRecording c3State).pendingTrans = 0 := by decide

/-- C3 amended: if a recording is stopped after capturing zero frames, stop
returns no artifact, no transcription call is made and nothing becomes
pending, and the status surfaced to observers is the Failed-to-save-recording
label with the overlay reset, with no error-class event emitted. -/
theorem C3_amended_no_data (s : SysState)
    (hmw : s.mw.recording = true) (hrec : s.recorder.isRecording = true)
    (hframes : s.recorder.frames = []) :
    (mwStopRecording s).transcribeCalls = s.transcribeCalls ∧
    (mwStopRecording s).pendingTrans = s.pendingTrans ∧
    (mwStopRecording s).mw.statusLabel = "Failed to save recording" ∧
    (mwStopRecording s).mw.errorEvents = s.mw.errorEvents ∧
    (mwStopRecording s).recorder.isRecording = false ∧
    (mwStopRecording s).mw.recording = false := by
  unfold mwStopRecording stopRecording saveToWav
  rw [if_neg (by simp [hmw])]
  rw [if_neg (by simp [hrec])]
  rw [hframes]
  dsimp only
  exact ⟨rfl, rfl, rfl, rfl, rfl, rfl⟩

/-- Witness for the amended C3 at the concrete zero-frame state. -/
theorem C3_amended_no_data_witness :
    (mwStopRecording c3State).transcribeCalls = [] ∧
    (mwStopRecording c3State).mw.statusLabel = "Failed to save recording" := by
  have h := C3_amended_no_data c3State rfl rfl rfl
  exact ⟨h.1, h.2.2.1⟩

/-- C4: for every exception text raised by a provider model, the emitted
error class is computed from the lower-cased text: any network signature
(checked first) yields network_error with the provider model name; failing
that, any API signature yields api_error with the provider model name;
otherwise a generic message carrying the original text is emitted. -/
theorem C4_error_classification (errStr modelName : String) :
    (containsAny networkSignatures (lowerStr errStr) = true →
      classifyError errStr modelName = "network_error:" ++ modelName) ∧
    (containsAny networkSignatures (lowerStr errStr) = false →
      containsAny apiSignatures (lowerStr errStr) = true →
      classifyError errStr modelName = "api_error:" ++ modelName) ∧
    (containsAny networkSignatures (lowerStr errStr) = false →
      containsAny apiSignatures (lowerStr errStr) = false →
      classifyError errStr modelName = "Transcription error: " ++ errStr) := by
  refine ⟨fun h => ?_, fun h1 h2 => ?_, fun h1 h2 => ?_⟩
  · simp [classifyError, h]
  · simp [classifyError, h1, h2]
  · simp [classifyError, h1, h2]

/-- Witness: one concrete input per classification branch, including a text
that matches a network signature and is classified ahead of any API check. -/
theorem C4_error_classification_witness :
    classifyError "Connection timed out" "gemini_flash" = "network_error:gemini_flash" ∧
    classifyError "401 Unauthorized" "elevenlabs" = "api_error:elevenlabs" ∧
    classifyError "something odd happened" "elevenlabs" =
      "Transcription error: something odd happened" := by
  refine ⟨(C4_error_classification _ _).1 (by decide),
    (C4_error_classification _ _).2.1 (by decide) (by decide),
    (C4_error_classification _ _).2.2 (by decide) (by decide)⟩

/-- C5: when the clipboard operations succeed, inserting any text through
the clipboard strategy delivers exactly that text to the focused
application and leaves the final clipboard content equal to the content it
had immediately before insert was called. -/
theorem C5_clipboard_roundtrip (text : String) (s : ClipSystem) :
    (insertViaClipboard ClipFault.ok text s).1.clipboard = s.clipboard ∧
    (insertViaClipboard ClipFault.ok text s).1.pasted = s.pasted ++ [text] ∧
    (insertViaClipboard ClipFault.ok text s).2 = true :=
  ⟨rfl, rfl, rfl⟩

/-- C7: calling start_recording while a capture is already active takes the
warning early-return branch and leaves the recorder state, including its
frame buffer, stream handle and recording flag, completely unchanged. -/
theorem C7_already_recording (r : RecState) (h : r.isRecording = true) :
    startRecording r = (r, StartOutcome.alreadyRecordingWarning) := by
  unfold startRecording
  rw [if_pos h]

/-- Witness at a concrete mid-capture recorder state. -/
theorem C7_already_recording_witness :
    startRecording { isRecording := true, frames := ["pcm"], streamOpen := true } =
      ({ isRecording := true, frames := ["pcm"], streamOpen := true },
        StartOutcome.alreadyRecordingWarning) :=
  C7_already_recording _ rfl

/-- C9: whatever exception is injected at any point of the on_press or
on_release body, the surrounding try/except converts it into a normal
return, so the listener callback never propagates an exception to the
pynput listener thread; the raw bodies do raise under the injected faults,
so the guarantee is not vacuous. -/
theorem C9_handlers_catch (f : PyFault) (s : KbState) (k : RawKey) :
    (∃ r, onPressHandled f s k = HandlerOutcome.normalReturn r) ∧
    (∃ r, onReleaseHandled f s k = HandlerOutcome.normalReturn r) ∧
    (∃ e, onPressRaw PyFault.atNormalize s k = Except.error e) ∧
    (∃ e, onReleaseRaw PyFault.atNormalize s k = Except.error e) := by
  refine ⟨?_, ?_, ⟨("Error in on_press", s), rfl⟩, ⟨("Error in on_release", s), rfl⟩⟩
  · cases h : onPressRaw f s k with
    | ok r => exact ⟨r, by simp [onPressHandled, h]⟩
    | error e => exact ⟨(e.2, none), by simp [onPressHandled, h]⟩
  · cases h : onReleaseRaw f s k with
    | ok r => exact ⟨(r, r.1.running), by simp [onReleaseHandled, h]⟩
    | error e => exact ⟨((e.2, none), e.2.running), by simp [onReleaseHandled, h]⟩

/-- C10: every exception inside the ElevenLabs transcribe try-block is
swallowed and replaced by the empty string, so the transcription thread
reports such provider failures upstream as a successful completion with
empty text; had the exception propagated (as the Gemini model does), it
would instead have been classified as a transcription error. -/
theorem C10_elevenlabs_swallows_errors (msg : String) :
    elevenLabsTranscribe true (ApiOutcome.raises msg) = Except.ok "" ∧
    transcribeThread (elevenLabsTranscribe true (ApiOutcome.raises msg)) "elevenlabs" =
      TMEmission.completed "" ∧
    transcribeThread (Except.error msg) "elevenlabs" =
      TMEmission.error (classifyError msg "elevenlabs") :=
  ⟨rfl, rfl, rfl⟩

/-- C6 counterexample: a transcription completing with empty text leaves
the surfaced status at Idle with no error-class event (so the session does
not end as Failed(EmptyResult)), and a blank whitespace-only completion is
handed to the text inserter rather than being rejected. -/
theorem C6_counterexample :
    (onTranscriptionCompletedMW "" "clipboard" true mwInit).statusLabel = "Idle" ∧
    (onTranscriptionCompletedMW "" "clipboard" true mwInit).errorEvents = [] ∧
    (onTranscriptionCompletedMW "" "clipboard" true mwInit).insertCalls = [] ∧
    (onTranscriptionCompletedMW " " "clipboard" true mwInit).insertCalls =
      [(" ", "clipboard")] := by decide

/-- C6 amended: when a transcription completes with empty text the inserter
is not invoked and a Transcription-Failed warning notification is shown,
but the surfaced status is Idle with no error-class event (no EmptyResult
classification exists); any non-empty text, including whitespace-only
blanks, is passed to the inserter. -/
theorem C6_amended_empty_completion (text method : String) (ov : Bool) (mw : MWState) :
    (text = "" →
      (onTranscriptionCompletedMW text method ov mw).insertCalls = mw.insertCalls ∧
      (onTranscriptionCompletedMW text method ov mw).statusLabel = "Idle" ∧
      (onTranscriptionCompletedMW text method ov mw).errorEvents = mw.errorEvents ∧
      (onTranscriptionCompletedMW text method ov mw).notifications =
        mw.notifications ++ [("Transcription Failed", "warning")] ∧
      (onTranscriptionCompletedMW text method ov mw).transcribing = false) ∧
    (text ≠ "" →
      (onTranscriptionCompletedMW text method ov mw).insertCalls =
        mw.insertCalls ++ [(text, method)] ∧
      (onTranscriptionCompletedMW text method ov mw).statusLabel = "Idle") := by
  constructor
  · intro h
    subst h
    exact ⟨rfl, rfl, rfl, rfl, rfl⟩
  · intro h
    have he : text.isEmpty = false := by
      cases hh : text.isEmpty
      · rfl
      · exact absurd ((String.isEmpty_iff text).mp hh) h
    unfold onTranscriptionCompletedMW
    rw [if_neg (by simp [he])]
    exact ⟨rfl, rfl⟩

/-- Witness for the amended C6 at an empty and a non-empty completion. -/
theorem C6_amended_empty_completion_witness :
    (onTranscriptionCompletedMW "" "clipboard" true mwInit).insertCalls = [] ∧
    (onTranscriptionCompletedMW "hello" "clipboard" true mwInit).insertCalls =
      [("hello", "clipboard")] := by
  refine ⟨((C6_amended_empty_completion "" "clipboard" true mwInit).1 rfl).1, ?_⟩
  exact ((C6_amended_empty_completion "hello" "clipboard" true mwInit).2 (by decide)).1

/-- C8 counterexample: the right-hand variant of the cmd (Windows/super)
modifier is not normalized to the bare modifier name, so with the shortcut
win+space (whose parsed form contains cmd) pressing right-cmd plus space
never emits ComboEngaged: normalization does not cover every modifier with
left/right variants. -/
theorem C8_counterexample :
    normalizeKey (RawKey.special "cmd_r") = some "cmd_r" ∧
    normalizeKey (RawKey.special "cmd_r") ≠ normalizeKey (RawKey.special "cmd") ∧
    (kbRun (initKb "win+space")
      [KEvent.press (RawKey.special "cmd_r"),
       KEvent.press (RawKey.special "space")]).2 = [] := by decide

/-- C8 amended: normalization maps the left and right physical variants of
ctrl, alt and shift to the bare modifier name, so a configured shortcut
naming the bare modifier matches either physical key; modifiers outside
this set, such as cmd, are left unnormalized. -/
theorem C8_amended_modifier_normalization :
    normalizeKey (RawKey.special "ctrl_l") = some "ctrl" ∧
    normalizeKey (RawKey.special "ctrl_r") = some "ctrl" ∧
    normalizeKey (RawKey.special "alt_l") = some "alt" ∧
    normalizeKey (RawKey.special "alt_r") = some "alt" ∧
    normalizeKey (RawKey.special "shift_l") = some "shift" ∧
    normalizeKey (RawKey.special "shift_r") = some "shift" ∧
    (kbRun (initKb "ctrl+space")
      [KEvent.press (RawKey.special "ctrl_l"),
       KEvent.press (RawKey.special "space")]).2 = [Emit.started] ∧
    (kbRun (initKb "ctrl+space")
      [KEvent.press (RawKey.special "ctrl_r"),
       KEvent.press (RawKey.special "space")]).2 = [Emit.started] := by decide
